import Mathlib

set_option maxRecDepth 8000

attribute [local semireducible] Rat.add Rat.mul Rat.sub Rat.inv

/-!
Formal model of the predictive-maintenance CSV ETL
(`CSV_ETL_PredictiveMaintenance-AI.py`).

Numbers are modelled as exact rationals (`ℚ`): Python's decimal literals
and the values produced by `round(x, 2)` are represented exactly, and
`round(x, 2)` itself is modelled as rounding to the nearest multiple of
1/100 with ties going to the even multiple (Python's banker rounding).
Python exceptions (division by zero in `calculate_metrics`, indexing an
empty record list) are modelled as `Option`/`Except` error values.
-/

/-- Round a rational to the nearest integer, ties to even
(the rounding mode used by Python's `round`). -/
def roundHalfEven (q : ℚ) : ℤ :=
  let f : ℤ := ⌊q⌋
  let r : ℚ := q - f
  if r < 1/2 then f
  else if 1/2 < r then f + 1
  else if f % 2 = 0 then f else f + 1

/-- Model of Python's `round(x, 2)`: round to the nearest multiple of
1/100, ties to even. -/
def round2 (q : ℚ) : ℚ := (roundHalfEven (q * 100) : ℚ) / 100

/-- The ASCII whitespace characters stripped by Python's `str.strip()`. -/
def pyWhitespace (c : Char) : Bool :=
  c = ' ' || c = '\t' || c = '\n' || c = '\r' || c = '\x0b' || c = '\x0c'

/-- Model of Python's `str.strip()` (ASCII whitespace). -/
def pyStrip (s : String) : String :=
  ⟨((s.data.dropWhile pyWhitespace).reverse.dropWhile pyWhitespace).reverse⟩

/-- Numeric value of a list of decimal digit characters. -/
def digitsVal (cs : List Char) : ℕ :=
  cs.foldl (fun n c => 10 * n + (c.toNat - 48)) 0

/-- Parse a non-empty all-digit character list. -/
def parseDigits (cs : List Char) : Option ℕ :=
  if cs ≠ [] ∧ cs.all Char.isDigit then some (digitsVal cs) else none

/-- Model of Python's `int(value)` on an already-stripped string: an
optional sign followed by decimal digits.  (Python's underscore digit
separators are not modelled.) -/
def pyInt? (s : String) : Option ℤ :=
  match s.data with
  | '+' :: rest => (parseDigits rest).map fun n => (n : ℤ)
  | '-' :: rest => (parseDigits rest).map fun n => -(n : ℤ)
  | cs => (parseDigits cs).map fun n => (n : ℤ)

/-- Unsigned decimal mantissa: digits, optionally split by one point,
at least one digit overall. -/
def parseMantissa (cs : List Char) : Option ℚ :=
  match cs.splitOn '.' with
  | [ip] => (parseDigits ip).map fun n => (n : ℚ)
  | [ip, fp] =>
      if (ip ≠ [] ∨ fp ≠ []) ∧ ip.all Char.isDigit ∧ fp.all Char.isDigit then
        some ((digitsVal ip : ℚ) + (digitsVal fp : ℚ) / (10 : ℚ) ^ fp.length)
      else none
  | _ => none

/-- Signed decimal exponent. -/
def parseExponent (cs : List Char) : Option ℤ :=
  match cs with
  | '+' :: rest => (parseDigits rest).map fun n => (n : ℤ)
  | '-' :: rest => (parseDigits rest).map fun n => -(n : ℤ)
  | other => (parseDigits other).map fun n => (n : ℤ)

/-- Unsigned float literal: mantissa with optional `e`-exponent. -/
def parseSimpleFloat (cs : List Char) : Option ℚ :=
  match cs.splitOn 'e' with
  | [m] => parseMantissa m
  | [m, e] =>
      (parseMantissa m).bind fun q =>
        (parseExponent e).map fun k => q * (10 : ℚ) ^ k
  | _ => none

/-- Case-normalize the exponent marker, so `E` and `e` are alike. -/
def lowerExpMarker (c : Char) : Char := if c = 'E' then 'e' else c

/-- Model of Python's `float(value)` on an already-stripped string:
optional sign, decimal mantissa, optional exponent.  (The special forms
`inf`/`nan` and underscore separators are not modelled.) -/
def pyFloat? (s : String) : Option ℚ :=
  match s.data.map lowerExpMarker with
  | '+' :: rest => parseSimpleFloat rest
  | '-' :: rest => (parseSimpleFloat rest).map Neg.neg
  | cs => parseSimpleFloat cs

/-- The kinds of field constraints in `field_requirements`
(the `"type"` tags of the Python schema dictionary). -/
inductive FieldKind
  | string
  | positive_integer
  | positive_number
  | range (mn mx : ℤ)
deriving DecidableEq

/-- The schema `self.field_requirements`: the 7 required fields in order,
each with its constraint kind (range bounds are the integer literals of
the source). -/
def field_requirements : List (String × FieldKind) :=
  [("machine_id", FieldKind.string),
   ("runtime_hours", FieldKind.positive_integer),
   ("vibration_level", FieldKind.positive_number),
   ("temperature", FieldKind.range 0 200),
   ("maintenance_threshold", FieldKind.range 0 100),
   ("max_operating_hours", FieldKind.positive_integer),
   ("scaling_factor", FieldKind.positive_number)]

/-- `self.required_fields = list(self.field_requirements.keys())`. -/
def required_fields : List String := field_requirements.map Prod.fst

/-- A validated field value: `machine_id` stays a string,
positive-integer fields become integers, the other numeric fields
become (exact) rationals standing for Python floats. -/
inductive Value
  | str (s : String)
  | int (n : ℤ)
  | num (q : ℚ)
deriving DecidableEq

/-- A raw CSV record as produced by the table reader: an ordered
association of field names to string values. -/
abbrev RawRow := List (String × String)

/-- A validated record (`valid_record` in the source): field names
associated to converted values, in schema order. -/
abbrev Record := List (String × Value)

deriving instance DecidableEq for Except

/-- Validation of one field of one record (the body of the
`for field in self.required_fields` loop of `validate_data`,
lines 54–94): missing/blank check, then conversion per kind.
Returns either the single error message the source appends to
`row_errors`, or the converted value stored in `valid_record`. -/
def checkField (record : RawRow) (name : String) (kind : FieldKind) :
    Except String Value :=
  match record.lookup name with
  | none => .error ("Missing required field: " ++ name)
  | some raw =>
    let value := pyStrip raw
    if value = "" then .error ("Missing required field: " ++ name)
    else
      match kind with
      | FieldKind.string => .ok (Value.str value)
      | FieldKind.positive_integer =>
        match pyInt? value with
        | some n =>
          if n ≤ 0 then
            .error ("Invalid value for " ++ name ++ ": must be a positive integer")
          else .ok (Value.int n)
        | none =>
          .error ("Invalid value for " ++ name ++ ": must be a positive integer")
      | FieldKind.positive_number =>
        match pyFloat? value with
        | some q =>
          if q ≤ 0 then
            .error ("Invalid value for " ++ name ++ ": must be a positive number")
          else .ok (Value.num q)
        | none =>
          .error ("Invalid value for " ++ name ++ ": must be a positive number")
      | FieldKind.range mn mx =>
        match pyFloat? value with
        | some q =>
          if q < (mn : ℚ) ∨ q > (mx : ℚ) then
            .error ("Invalid value for " ++ name ++ ": must be between " ++
              toString mn ++ " and " ++ toString mx)
          else .ok (Value.num q)
        | none =>
          .error ("Invalid value for " ++ name ++ ": must be a number")

/-- Validation of one record: the error messages collected in
`row_errors` (in schema field order) and the converted `valid_record`. -/
def validate_row (record : RawRow) : List String × Record :=
  field_requirements.foldr
    (fun fr acc =>
      match checkField record fr.1 fr.2 with
      | .error m => (m :: acc.1, acc.2)
      | .ok v => (acc.1, (fr.1, v) :: acc.2))
    ([], [])

/-- The result triple of `validate_data`:
`(is_valid, error_message, valid_records)`. -/
structure ValidationOutput where
  is_valid : Bool
  error_message : String
  valid_records : List Record
deriving DecidableEq

/-- The error line recorded for a failing row:
`f"Row {i}: {', '.join(row_errors)}"`. -/
def rowErrorLine (i : ℕ) (record : RawRow) : String :=
  "Row " ++ toString i ++ ": " ++ String.intercalate ", " (validate_row record).1

/-- The per-record loop of `validate_data` (lines 49–99), 1-indexed:
accumulates the `errors` lines and the `valid_records` in input order. -/
def collectRows : ℕ → List RawRow → List String × List Record
  | _, [] => ([], [])
  | i, record :: rest =>
    let done := collectRows (i + 1) rest
    if (validate_row record).1.isEmpty then
      (done.1, (validate_row record).2 :: done.2)
    else
      (rowErrorLine i record :: done.1, done.2)

/-- `missing_fields`: the required field names absent from the first
record's keys, in schema order. -/
def missing_fields (first : RawRow) : List String :=
  required_fields.filter fun f => (first.lookup f).isNone

/-- `validate_data` on a non-empty record list (`first` is `records[0]`):
header check, then per-record validation, then the all-or-nothing
result triple. -/
def validate_data_core (first : RawRow) (rest : List RawRow) : ValidationOutput :=
  if missing_fields first ≠ [] then
    ⟨false,
      "ERROR: Missing required field(s): " ++
        String.intercalate ", " (missing_fields first) ++ " in header.",
      []⟩
  else
    let res := collectRows 1 (first :: rest)
    if res.1 ≠ [] then ⟨false, String.intercalate "\n" res.1, []⟩
    else ⟨true, "", res.2⟩

/-- `validate_data`; `none` models the uncaught `IndexError` the source
would raise at `records[0]` on an empty list (never reached through
`process_csv_data`, which catches empty input while parsing). -/
def validate_data (records : List RawRow) : Option ValidationOutput :=
  match records with
  | [] => none
  | first :: rest => some (validate_data_core first rest)

/-- A fully validated row, with the fields a `valid_record` is
guaranteed to hold after `validate_data` succeeds (the input type of
`calculate_metrics`). -/
structure TypedRow where
  machine_id : String
  runtime_hours : ℤ
  vibration_level : ℚ
  temperature : ℚ
  maintenance_threshold : ℚ
  max_operating_hours : ℤ
  scaling_factor : ℚ

/-- `predicted_failure_risk = round(vibration_level * scaling_factor, 2)`. -/
def predicted_failure_risk (record : TypedRow) : ℚ :=
  round2 (record.vibration_level * record.scaling_factor)

/-- `maintenance_urgency_ratio = round((predicted_failure_risk / runtime_hours) * 100, 2)`
(consumes the already-rounded risk). -/
def maintenance_urgency_ratio (record : TypedRow) : ℚ :=
  round2 (predicted_failure_risk record / (record.runtime_hours : ℚ) * 100)

/-- `operating_margin = round(((max_operating_hours - runtime_hours) / max_operating_hours) * 100, 2)`. -/
def operating_margin (record : TypedRow) : ℚ :=
  round2 (((record.max_operating_hours : ℚ) - (record.runtime_hours : ℚ)) /
    (record.max_operating_hours : ℚ) * 100)

/-- `composite_score = round(operating_margin * 0.3 + (100 - maintenance_urgency_ratio) * 0.7, 2)`
(consumes the already-rounded margin and urgency). -/
def composite_score (record : TypedRow) : ℚ :=
  round2 (operating_margin record * (3/10) +
    (100 - maintenance_urgency_ratio record) * (7/10))

/-- `efficiency_ratio = round(runtime_hours / predicted_failure_risk, 2)`
(consumes the already-rounded risk). -/
def efficiency_ratio (record : TypedRow) : ℚ :=
  round2 ((record.runtime_hours : ℚ) / predicted_failure_risk record)

/-- The result dictionary of `calculate_metrics`. -/
structure MetricsResult where
  predicted_failure_risk : ℚ
  maintenance_urgency_ratio : ℚ
  operating_margin : ℚ
  composite_score : ℚ
  efficiency_ratio : ℚ
  status : String
  recommendation : String
deriving DecidableEq

/-- `calculate_metrics` (lines 131–179).  The three `none` guards model
the `ZeroDivisionError` Python raises when a divisor is zero, in the
order the divisions are evaluated (`runtime_hours` at line 145,
`max_operating_hours` at line 149, `predicted_failure_risk` at
line 157); otherwise the five rounded metrics and the classification
(`is_efficient = 0.90 <= efficiency_ratio <= 9.90`,
`is_urgent = maintenance_urgency_ratio > maintenance_threshold`) are
returned. -/
def calculate_metrics (record : TypedRow) : Option MetricsResult :=
  if record.runtime_hours = 0 then none
  else if record.max_operating_hours = 0 then none
  else if predicted_failure_risk record = 0 then none
  else if composite_score record ≥ 75 ∧
      ((9:ℚ)/10 ≤ efficiency_ratio record ∧ efficiency_ratio record ≤ (99:ℚ)/10) ∧
      ¬ (maintenance_urgency_ratio record > record.maintenance_threshold) then
    some ⟨predicted_failure_risk record, maintenance_urgency_ratio record,
      operating_margin record, composite_score record, efficiency_ratio record,
      "Optimal", "No immediate maintenance required"⟩
  else
    some ⟨predicted_failure_risk record, maintenance_urgency_ratio record,
      operating_margin record, composite_score record, efficiency_ratio record,
      "Requires Maintenance", "Schedule maintenance promptly"⟩

/-- Record-level logic of `parse_csv_data` (lines 29–35): the raw
text-to-row tokenization is the out-of-scope table reader; an empty
record list raises `ValueError("No data found in the CSV input")`,
caught and returned as the `ERROR:` string.  A non-empty list is
returned unchanged (split as head and tail to witness non-emptiness). -/
def parse_csv_data (records : List RawRow) : Except String (RawRow × List RawRow) :=
  match records with
  | [] => .error ("ERROR: Invalid data format. Please provide data in CSV format. " ++
      "Details: No data found in the CSV input")
  | first :: rest => .ok (first, rest)

/-- Reads back a `TypedRow` from a validated `Record`: each field is
looked up with the value constructor the validator gives it.  `none`
models the `KeyError`/`TypeError` Python would raise in
`calculate_metrics` on a record lacking these bindings (impossible for
records produced by successful validation). -/
def recordToTypedRow (rec : Record) : Option TypedRow :=
  match rec.lookup "machine_id", rec.lookup "runtime_hours",
      rec.lookup "vibration_level", rec.lookup "temperature",
      rec.lookup "maintenance_threshold", rec.lookup "max_operating_hours",
      rec.lookup "scaling_factor" with
  | some (Value.str mid), some (Value.int rt), some (Value.num vib),
      some (Value.num temp), some (Value.num thr), some (Value.int mx),
      some (Value.num sc) =>
    some ⟨mid, rt, vib, temp, thr, mx, sc⟩
  | _, _, _, _, _, _, _ => none

/-- The structured outcome `process_csv_data` hands to the (out-of-scope)
report renderers: the parse error string, or the validation failure
message, or one `(record, metrics)` pair per accepted machine in input
order. -/
inductive ProcessResult
  | parseError (msg : String)
  | validationFailed (error_message : String)
  | success (results : List (Record × Option MetricsResult))
deriving DecidableEq

/-- `process_csv_data` (lines 244–269), with the markdown rendering of
the two reports (a pure formatting consumer) abstracted away:
parse, validate, and on success compute metrics for every valid record. -/
def process_csv_data (records : List RawRow) : ProcessResult :=
  match parse_csv_data records with
  | .error e => ProcessResult.parseError e
  | .ok (first, rest) =>
    let out := validate_data_core first rest
    if out.is_valid then
      ProcessResult.success
        (out.valid_records.map fun rec => (rec, (recordToTypedRow rec).bind calculate_metrics))
    else ProcessResult.validationFailed out.error_message

/-- Specification-side description of the aggregated error report
(§4.1 step 3 of the spec): one line per failing row, 1-based indices in
ascending input order, each line `"Row {i}: "` followed by that row's
full comma-joined message list. -/
def failingRowLines (records : List RawRow) : List String :=
  ((records.enumFrom 1).filter fun p => !(validate_row p.2).1.isEmpty).map
    fun p => "Row " ++ toString p.1 ++ ": " ++ String.intercalate ", " (validate_row p.2).1

lemma collectRows_fst (i : ℕ) (rs : List RawRow) :
    (collectRows i rs).1 =
      ((rs.enumFrom i).filter fun p => !(validate_row p.2).1.isEmpty).map
        fun p => "Row " ++ toString p.1 ++ ": " ++
          String.intercalate ", " (validate_row p.2).1 := by
  induction rs generalizing i with
  | nil => rfl
  | cons r rest ih =>
    by_cases h : (validate_row r).1.isEmpty <;>
      simp [collectRows, List.enumFrom, h, ih, rowErrorLine]

lemma collectRows_snd (i : ℕ) (rs : List RawRow) :
    (collectRows i rs).2 =
      (rs.filter fun r => (validate_row r).1.isEmpty).map
        fun r => (validate_row r).2 := by
  induction rs generalizing i with
  | nil => rfl
  | cons r rest ih =>
    by_cases h : (validate_row r).1.isEmpty <;>
      simp [collectRows, List.filter_cons, h, ih]

lemma exists_mem_enumFrom {α : Type} {r : α} {l : List α} (h : r ∈ l) (i : ℕ) :
    ∃ p ∈ l.enumFrom i, p.2 = r := by
  induction l generalizing i with
  | nil => cases h
  | cons a l ih =>
    rcases List.mem_cons.mp h with rfl | hmem
    · exact ⟨(i, r), by simp [List.enumFrom], rfl⟩
    · obtain ⟨p, hp, hpr⟩ := ih hmem (i + 1)
      exact ⟨p, by simp [List.enumFrom, hp], hpr⟩

lemma snd_mem_of_mem_enumFrom {α : Type} {p : ℕ × α} {l : List α} {i : ℕ}
    (h : p ∈ l.enumFrom i) : p.2 ∈ l := by
  have := List.mem_map_of_mem Prod.snd h
  rwa [List.enumFrom_map_snd] at this

/-- The header check passes and some row fails: `validate_data_core`
reports all failing rows and no valid record. -/
lemma validate_core_of_fail (first : RawRow) (rest : List RawRow)
    (hheader : missing_fields first = [])
    (hfail : ∃ r ∈ first :: rest, (validate_row r).1 ≠ []) :
    validate_data_core first rest =
      ⟨false, String.intercalate "\n" (failingRowLines (first :: rest)), []⟩ := by
  obtain ⟨r, hr, hrerr⟩ := hfail
  have herrs : (collectRows 1 (first :: rest)).1 ≠ [] := by
    rw [collectRows_fst]
    obtain ⟨p, hp, hpr⟩ := exists_mem_enumFrom hr 1
    have hpf : p ∈ ((first :: rest).enumFrom 1).filter
        fun p => !(validate_row p.2).1.isEmpty := by
      refine List.mem_filter.mpr ⟨hp, ?_⟩
      simpa [hpr, List.isEmpty_iff] using hrerr
    exact fun hmap => absurd (List.map_eq_nil_iff.mp hmap)
      (List.ne_nil_of_mem hpf)
  simp only [validate_data_core, hheader]
  rw [if_neg (by simp), if_pos herrs, collectRows_fst]
  rfl

/-- The header check passes and every row passes: `validate_data_core`
succeeds with one converted record per input row, in order. -/
lemma validate_core_of_pass (first : RawRow) (rest : List RawRow)
    (hheader : missing_fields first = [])
    (hpass : ∀ r ∈ first :: rest, (validate_row r).1 = []) :
    validate_data_core first rest =
      ⟨true, "", (first :: rest).map fun r => (validate_row r).2⟩ := by
  have herrs : (collectRows 1 (first :: rest)).1 = [] := by
    rw [collectRows_fst]
    have : ((first :: rest).enumFrom 1).filter
        (fun p => !(validate_row p.2).1.isEmpty) = [] := by
      refine List.filter_eq_nil_iff.mpr fun p hp => ?_
      simp [hpass p.2 (snd_mem_of_mem_enumFrom hp), List.isEmpty_iff]
    rw [this]; rfl
  have hvals : (collectRows 1 (first :: rest)).2 =
      (first :: rest).map fun r => (validate_row r).2 := by
    rw [collectRows_snd]
    congr 1
    refine List.filter_eq_self.mpr fun r hr => ?_
    simp [hpass r hr, List.isEmpty_iff]
  simp only [validate_data_core, hheader]
  rw [if_neg (by simp), if_neg (by simp [herrs]), hvals]

lemma roundHalfEven_ge_one {x : ℚ} (h : 1/2 < x) : 1 ≤ roundHalfEven x := by
  have h0 : (0 : ℚ) ≤ x := le_of_lt (lt_trans (by norm_num) h)
  have hf0 : 0 ≤ ⌊x⌋ := Int.floor_nonneg.mpr h0
  have hfle : (⌊x⌋ : ℚ) ≤ x := Int.floor_le x
  unfold roundHalfEven
  dsimp only
  rcases lt_or_eq_of_le hf0 with hf1 | hf1
  · have hf1 : 1 ≤ ⌊x⌋ := hf1
    split_ifs <;> omega
  · have hx : x - (⌊x⌋ : ℚ) = x := by rw [← hf1]; push_cast; ring
    rw [hx]
    rw [if_neg (not_lt.mpr (le_of_lt h)), if_pos h]
    omega

lemma round2_pos {q : ℚ} (h : 1/200 < q) : 0 < round2 q := by
  have h1 : (1 : ℚ)/2 < q * 100 := by linarith
  have h2 : 1 ≤ roundHalfEven (q * 100) := roundHalfEven_ge_one h1
  unfold round2
  have : (1 : ℚ) ≤ (roundHalfEven (q * 100) : ℚ) := by exact_mod_cast h2
  positivity

/-- C1.  As stated the claim is false on the code: the
validator-guaranteed invariants hold for
`vibration_level = scaling_factor = 0.001` (both are valid positive
numbers), yet `predicted_failure_risk = round(0.000001, 2) = 0` and the
`efficiency_ratio` division raises `ZeroDivisionError`
(`calculate_metrics` returns no result). -/
theorem spec_c1_counterexample :
    (((0:ℤ) < 50 ∧ (0:ℤ) < 200) ∧ ((0:ℚ) < 1/1000 ∧ (0:ℚ) < 1/1000)) ∧
    predicted_failure_risk ⟨"M1", 50, 1/1000, 80, 30, 200, 1/1000⟩ = 0 ∧
    calculate_metrics ⟨"M1", 50, 1/1000, 80, 30, 200, 1/1000⟩ = none := by decide

/-- C1 (amended).  For every `TypedRow` satisfying the
validator-guaranteed invariants, `calculate_metrics` is total with no
error path provided the rounded divisor is nonzero, which holds
whenever `vibration_level * scaling_factor > 1/200` (= 0.005); for
smaller positive products `round(vibration_level * scaling_factor, 2)`
is `0` and the `efficiency_ratio` division does divide by zero. -/
theorem spec_c1_total_when_risk_nonzero (r : TypedRow)
    (hrt : 0 < r.runtime_hours) (hmx : 0 < r.max_operating_hours)
    (_hvib : 0 < r.vibration_level) (_hsc : 0 < r.scaling_factor)
    (hprod : 1/200 < r.vibration_level * r.scaling_factor) :
    0 < predicted_failure_risk r ∧ (calculate_metrics r).isSome = true := by
  have hpfr : 0 < predicted_failure_risk r := round2_pos hprod
  refine ⟨hpfr, ?_⟩
  unfold calculate_metrics
  rw [if_neg hrt.ne', if_neg hmx.ne', if_neg hpfr.ne']
  split <;> rfl

/-- C1 witness: the amended totality theorem applied to the P4 row. -/
theorem spec_c1_witness :
    0 < predicted_failure_risk ⟨"M501", 50, 2, 80, 30, 200, 5⟩ ∧
    (calculate_metrics ⟨"M501", 50, 2, 80, 30, 200, 5⟩).isSome = true :=
  spec_c1_total_when_risk_nonzero ⟨"M501", 50, 2, 80, 30, 200, 5⟩
    (by decide) (by decide) (by decide) (by decide) (by decide)

/-- C2.  The five metrics are computed in the fixed order with each
intermediate rounded to 2 decimals before any later formula consumes it
(the first five conjuncts spell out the chained formulas of
`calculate_metrics`), and on the P4 inputs
(`vibration_level=2, scaling_factor=5, runtime_hours=50,
max_operating_hours=200, maintenance_threshold=30`) the result is
exactly `10.0, 20.0, 75.0, 78.5, 5.0` with status `"Optimal"`. -/
theorem spec_c2_rounding_propagation :
    (∀ r : TypedRow,
      predicted_failure_risk r = round2 (r.vibration_level * r.scaling_factor)) ∧
    (∀ r : TypedRow,
      maintenance_urgency_ratio r =
        round2 (predicted_failure_risk r / (r.runtime_hours : ℚ) * 100)) ∧
    (∀ r : TypedRow,
      operating_margin r =
        round2 (((r.max_operating_hours : ℚ) - (r.runtime_hours : ℚ)) /
          (r.max_operating_hours : ℚ) * 100)) ∧
    (∀ r : TypedRow,
      composite_score r =
        round2 (operating_margin r * (3/10) +
          (100 - maintenance_urgency_ratio r) * (7/10))) ∧
    (∀ r : TypedRow,
      efficiency_ratio r =
        round2 ((r.runtime_hours : ℚ) / predicted_failure_risk r)) ∧
    calculate_metrics ⟨"M501", 50, 2, 80, 30, 200, 5⟩ =
      some ⟨10, 20, 75, 157/2, 5, "Optimal", "No immediate maintenance required"⟩ :=
  ⟨fun _ => rfl, fun _ => rfl, fun _ => rfl, fun _ => rfl, fun _ => rfl, by decide⟩

/-- C9.  With no data rows at all, the pipeline stops at the parse
stage with the no-data-found error; validation and metrics are never
reached (the outcome is the bare parse error). -/
theorem spec_c9_empty_input :
    parse_csv_data ([] : List RawRow) = .error
      "ERROR: Invalid data format. Please provide data in CSV format. Details: No data found in the CSV input" ∧
    process_csv_data [] = ProcessResult.parseError
      "ERROR: Invalid data format. Please provide data in CSV format. Details: No data found in the CSV input" := by
  decide

/-- C10.  `calculate_metrics` never reads `machine_id` or
`temperature`: two typed rows agreeing on the other five fields produce
identical results. -/
theorem spec_c10_noninterference (r1 r2 : TypedRow)
    (h1 : r1.runtime_hours = r2.runtime_hours)
    (h2 : r1.vibration_level = r2.vibration_level)
    (h3 : r1.maintenance_threshold = r2.maintenance_threshold)
    (h4 : r1.max_operating_hours = r2.max_operating_hours)
    (h5 : r1.scaling_factor = r2.scaling_factor) :
    calculate_metrics r1 = calculate_metrics r2 := by
  obtain ⟨a1, b1, c1, d1, e1, f1, g1⟩ := r1
  obtain ⟨a2, b2, c2, d2, e2, f2, g2⟩ := r2
  dsimp only at h1 h2 h3 h4 h5
  subst h1; subst h2; subst h3; subst h4; subst h5
  rfl

/-- C10 witness: two rows differing in `machine_id` and `temperature`
only. -/
theorem spec_c10_witness :
    calculate_metrics ⟨"A", 50, 2, 80, 30, 200, 5⟩ =
      calculate_metrics ⟨"B", 50, 2, 199, 30, 200, 5⟩ :=
  spec_c10_noninterference _ _ rfl rfl rfl rfl rfl

/-- C3.  For a row on which `calculate_metrics` returns a result, the
status/recommendation pair is `"Optimal"`/`"No immediate maintenance
required"` exactly when the rounded composite score is at least 75, the
rounded efficiency ratio lies in [0.90, 9.90] and the rounded urgency
ratio does not exceed the maintenance threshold; in every other case it
is `"Requires Maintenance"`/`"Schedule maintenance promptly"`. -/
theorem spec_c3_classification (r : TypedRow) (m : MetricsResult)
    (h : calculate_metrics r = some m) :
    ((m.status = "Optimal" ∧ m.recommendation = "No immediate maintenance required") ↔
      (m.composite_score ≥ 75 ∧
        ((9:ℚ)/10 ≤ m.efficiency_ratio ∧ m.efficiency_ratio ≤ (99:ℚ)/10) ∧
        m.maintenance_urgency_ratio ≤ r.maintenance_threshold)) ∧
    ((m.status = "Requires Maintenance" ∧
        m.recommendation = "Schedule maintenance promptly") ↔
      ¬ (m.composite_score ≥ 75 ∧
        ((9:ℚ)/10 ≤ m.efficiency_ratio ∧ m.efficiency_ratio ≤ (99:ℚ)/10) ∧
        m.maintenance_urgency_ratio ≤ r.maintenance_threshold)) := by
  unfold calculate_metrics at h
  split_ifs at h with h1 h2 h3 h4
  · obtain rfl := Option.some.inj h
    dsimp only
    constructor
    · constructor
      · exact fun _ => ⟨h4.1, h4.2.1, not_lt.mp h4.2.2⟩
      · exact fun _ => ⟨rfl, rfl⟩
    · constructor
      · rintro ⟨hs, -⟩; exact absurd hs (by decide)
      · exact fun hn => absurd ⟨h4.1, h4.2.1, not_lt.mp h4.2.2⟩ hn
  · obtain rfl := Option.some.inj h
    dsimp only
    constructor
    · constructor
      · rintro ⟨hs, -⟩; exact absurd hs (by decide)
      · exact fun hyp => absurd ⟨hyp.1, hyp.2.1, not_lt.mpr hyp.2.2⟩ h4
    · constructor
      · exact fun _ hyp => h4 ⟨hyp.1, hyp.2.1, not_lt.mpr hyp.2.2⟩
      · exact fun _ => ⟨rfl, rfl⟩

/-- C3 witness: the P5 inputs (P4 with `maintenance_threshold = 10`)
give the same numeric metrics but urgency 20 > 10, so the theorem's
second equivalence yields `"Requires Maintenance"`. -/
theorem spec_c3_witness :
    (MetricsResult.mk 10 20 75 (157/2) 5
        "Requires Maintenance" "Schedule maintenance promptly").status =
      "Requires Maintenance" ∧
    (MetricsResult.mk 10 20 75 (157/2) 5
        "Requires Maintenance" "Schedule maintenance promptly").recommendation =
      "Schedule maintenance promptly" :=
  ((spec_c3_classification ⟨"M501", 50, 2, 80, 10, 200, 5⟩ _ (by decide)).2).mpr
    (by decide)

/-- C4.  With a complete header and at least one failing row,
validation fails with exactly one line per failing row, `"Row {i}: "`
followed by that row's full comma-joined message list, 1-based and in
ascending input order, and with no valid records surfaced. -/
theorem spec_c4_all_errors_collected (first : RawRow) (rest : List RawRow)
    (hheader : missing_fields first = [])
    (hfail : ∃ r ∈ first :: rest, (validate_row r).1 ≠ []) :
    validate_data (first :: rest) =
      some ⟨false, String.intercalate "\n" (failingRowLines (first :: rest)), []⟩ := by
  rw [validate_data]
  exact congrArg some (validate_core_of_fail first rest hheader hfail)

/-- C4 witness: rows 2 and 3 fail (bad `runtime_hours`, blank
`scaling_factor`), row 1 passes; the report has exactly the two row
lines, in order, with the full message lists. -/
theorem spec_c4_witness :
    validate_data
      [[("machine_id","M501"),("runtime_hours","50"),("vibration_level","2"),
        ("temperature","80"),("maintenance_threshold","30"),
        ("max_operating_hours","200"),("scaling_factor","5")],
       [("machine_id","M502"),("runtime_hours","abc"),("vibration_level","2"),
        ("temperature","80"),("maintenance_threshold","30"),
        ("max_operating_hours","200"),("scaling_factor","5")],
       [("machine_id","M503"),("runtime_hours","40"),("vibration_level","-1"),
        ("temperature","80"),("maintenance_threshold","30"),
        ("max_operating_hours","200"),("scaling_factor","")]] =
      some ⟨false,
        "Row 2: Invalid value for runtime_hours: must be a positive integer\n" ++
          "Row 3: Invalid value for vibration_level: must be a positive number, " ++
          "Missing required field: scaling_factor",
        []⟩ := by
  have h := spec_c4_all_errors_collected
    [("machine_id","M501"),("runtime_hours","50"),("vibration_level","2"),
     ("temperature","80"),("maintenance_threshold","30"),
     ("max_operating_hours","200"),("scaling_factor","5")]
    [[("machine_id","M502"),("runtime_hours","abc"),("vibration_level","2"),
      ("temperature","80"),("maintenance_threshold","30"),
      ("max_operating_hours","200"),("scaling_factor","5")],
     [("machine_id","M503"),("runtime_hours","40"),("vibration_level","-1"),
      ("temperature","80"),("maintenance_threshold","30"),
      ("max_operating_hours","200"),("scaling_factor","")]]
    (by decide)
    ⟨[("machine_id","M502"),("runtime_hours","abc"),("vibration_level","2"),
      ("temperature","80"),("maintenance_threshold","30"),
      ("max_operating_hours","200"),("scaling_factor","5")],
     by decide, by decide⟩
  exact h.trans (by decide)

/-- C5.  If the first row lacks some required field names, validation
fails immediately with the single comma-joined header message and no
row-level errors, even when later rows also hold invalid values. -/
theorem spec_c5_header_fail_fast (first : RawRow) (rest : List RawRow)
    (hmissing : missing_fields first ≠ []) :
    validate_data (first :: rest) =
      some ⟨false,
        "ERROR: Missing required field(s): " ++
          String.intercalate ", " (missing_fields first) ++ " in header.",
        []⟩ := by
  rw [validate_data]
  simp only [validate_data_core, if_pos hmissing]

/-- C5 witness: header lacking `scaling_factor`, with a second row that
also has an invalid value; the output carries only the header message. -/
theorem spec_c5_witness :
    validate_data
      [[("machine_id","M501"),("runtime_hours","50"),("vibration_level","2"),
        ("temperature","80"),("maintenance_threshold","30"),
        ("max_operating_hours","200")],
       [("machine_id","M502"),("runtime_hours","abc"),("vibration_level","2"),
        ("temperature","80"),("maintenance_threshold","30"),
        ("max_operating_hours","200")]] =
      some ⟨false, "ERROR: Missing required field(s): scaling_factor in header.", []⟩ := by
  have h := spec_c5_header_fail_fast
    [("machine_id","M501"),("runtime_hours","50"),("vibration_level","2"),
     ("temperature","80"),("maintenance_threshold","30"),
     ("max_operating_hours","200")]
    [[("machine_id","M502"),("runtime_hours","abc"),("vibration_level","2"),
      ("temperature","80"),("maintenance_threshold","30"),
      ("max_operating_hours","200")]]
    (by decide)
  exact h.trans (by decide)

/-- C6.  Validation is all-or-nothing: with a complete header, if any
row fails then no valid record is returned, and if every row passes the
result is exactly one converted record per input row, in input order. -/
theorem spec_c6_all_or_nothing (first : RawRow) (rest : List RawRow)
    (hheader : missing_fields first = []) :
    ((∃ r ∈ first :: rest, (validate_row r).1 ≠ []) →
      (validate_data_core first rest).valid_records = []) ∧
    ((∀ r ∈ first :: rest, (validate_row r).1 = []) →
      validate_data_core first rest =
        ⟨true, "", (first :: rest).map fun r => (validate_row r).2⟩) := by
  constructor
  · intro hfail
    rw [validate_core_of_fail first rest hheader hfail]
  · intro hpass
    exact validate_core_of_pass first rest hheader hpass

/-- C6 witness: a failing batch (valid row plus invalid row) surfaces
no records; the same valid row alone yields exactly its converted
record. -/
theorem spec_c6_witness :
    (validate_data_core
      [("machine_id","M501"),("runtime_hours","50"),("vibration_level","2"),
       ("temperature","80"),("maintenance_threshold","30"),
       ("max_operating_hours","200"),("scaling_factor","5")]
      [[("machine_id","M502"),("runtime_hours","abc"),("vibration_level","2"),
        ("temperature","80"),("maintenance_threshold","30"),
        ("max_operating_hours","200"),("scaling_factor","5")]]).valid_records = [] ∧
    validate_data_core
      [("machine_id","M501"),("runtime_hours","50"),("vibration_level","2"),
       ("temperature","80"),("maintenance_threshold","30"),
       ("max_operating_hours","200"),("scaling_factor","5")] [] =
      ⟨true, "",
        [[("machine_id", Value.str "M501"), ("runtime_hours", Value.int 50),
          ("vibration_level", Value.num 2), ("temperature", Value.num 80),
          ("maintenance_threshold", Value.num 30),
          ("max_operating_hours", Value.int 200),
          ("scaling_factor", Value.num 5)]]⟩ := by
  constructor
  · exact (spec_c6_all_or_nothing _ _ (by decide)).1
      ⟨[("machine_id","M502"),("runtime_hours","abc"),("vibration_level","2"),
        ("temperature","80"),("maintenance_threshold","30"),
        ("max_operating_hours","200"),("scaling_factor","5")],
       by decide, by decide⟩
  · exact ((spec_c6_all_or_nothing _ _ (by decide)).2 (by decide)).trans (by decide)

lemma checkField_range_eq (record : RawRow) (name raw : String) (mn mx : ℤ)
    (hlook : record.lookup name = some raw) (hne : pyStrip raw ≠ "") :
    checkField record name (FieldKind.range mn mx) =
      (match pyFloat? (pyStrip raw) with
       | some q =>
         if q < (mn : ℚ) ∨ q > (mx : ℚ) then
           Except.error ("Invalid value for " ++ name ++ ": must be between " ++
             toString mn ++ " and " ++ toString mx)
         else Except.ok (Value.num q)
       | none =>
         Except.error ("Invalid value for " ++ name ++ ": must be a number")) := by
  simp only [checkField, hlook]
  rw [if_neg hne]

lemma checkField_posint_eq (record : RawRow) (name raw : String)
    (hlook : record.lookup name = some raw) (hne : pyStrip raw ≠ "") :
    checkField record name FieldKind.positive_integer =
      (match pyInt? (pyStrip raw) with
       | some n =>
         if n ≤ 0 then
           Except.error ("Invalid value for " ++ name ++ ": must be a positive integer")
         else Except.ok (Value.int n)
       | none =>
         Except.error ("Invalid value for " ++ name ++ ": must be a positive integer")) := by
  simp only [checkField, hlook]
  rw [if_neg hne]

/-- C7.  For a `Range(min,max)` field with a present, non-blank value:
a value that parses as a number is accepted exactly when it lies in the
closed interval (endpoints included), the out-of-range message names
the bounds, and an unparseable value gets the distinct
must-be-a-number message. -/
theorem spec_c7_range_closed_interval (record : RawRow) (name raw : String)
    (mn mx : ℤ)
    (hlook : record.lookup name = some raw) (hne : pyStrip raw ≠ "") :
    (∀ q : ℚ, pyFloat? (pyStrip raw) = some q →
      ((checkField record name (FieldKind.range mn mx) = .ok (Value.num q) ↔
          ((mn : ℚ) ≤ q ∧ q ≤ (mx : ℚ))) ∧
        ((q < (mn : ℚ) ∨ q > (mx : ℚ)) →
          checkField record name (FieldKind.range mn mx) =
            .error ("Invalid value for " ++ name ++ ": must be between " ++
              toString mn ++ " and " ++ toString mx)))) ∧
    (pyFloat? (pyStrip raw) = none →
      checkField record name (FieldKind.range mn mx) =
        .error ("Invalid value for " ++ name ++ ": must be a number")) := by
  rw [checkField_range_eq record name raw mn mx hlook hne]
  constructor
  · intro q hq
    rw [hq]
    dsimp only
    by_cases hr : q < (mn : ℚ) ∨ q > (mx : ℚ)
    · rw [if_pos hr]
      refine ⟨iff_of_false (by simp) ?_, fun _ => rfl⟩
      rintro ⟨hl, hu⟩
      rcases hr with hr | hr <;> linarith
    · rw [if_neg hr]
      push_neg at hr
      exact ⟨iff_of_true rfl ⟨not_lt.mp (fun hc => absurd hc (by simpa using hr.1)),
        not_lt.mp (fun hc => absurd hc (by simpa using hr.2))⟩,
        fun habs => absurd habs (by push_neg; exact hr)⟩
  · intro hq
    rw [hq]

/-- C7 witness: `temperature = 0` and `temperature = 200` are both
accepted for `Range(0, 200)`, while `temperature = 200.01` fails with
the range message. -/
theorem spec_c7_witness :
    checkField [("temperature","0")] "temperature" (FieldKind.range 0 200) =
      .ok (Value.num 0) ∧
    checkField [("temperature","200")] "temperature" (FieldKind.range 0 200) =
      .ok (Value.num 200) ∧
    checkField [("temperature","200.01")] "temperature" (FieldKind.range 0 200) =
      .error "Invalid value for temperature: must be between 0 and 200" := by
  refine ⟨?_, ?_, ?_⟩
  · exact ((spec_c7_range_closed_interval [("temperature","0")] "temperature" "0"
      0 200 (by decide) (by decide)).1 0 (by decide)).1.mpr (by decide)
  · exact ((spec_c7_range_closed_interval [("temperature","200")] "temperature" "200"
      0 200 (by decide) (by decide)).1 200 (by decide)).1.mpr (by decide)
  · exact (((spec_c7_range_closed_interval [("temperature","200.01")] "temperature"
      "200.01" 0 200 (by decide) (by decide)).1 (20001/100) (by decide)).2
      (Or.inr (by decide))).trans (by decide)

/-- C8.  For a `PositiveInteger` field with a present, non-blank value:
it is accepted exactly when the stripped string parses as an integer
that is strictly positive; any other value (unparseable, zero, or
negative) gets the must-be-a-positive-integer message. -/
theorem spec_c8_positive_integer (record : RawRow) (name raw : String)
    (hlook : record.lookup name = some raw) (hne : pyStrip raw ≠ "") :
    (∀ n : ℤ,
      checkField record name FieldKind.positive_integer = .ok (Value.int n) ↔
        (pyInt? (pyStrip raw) = some n ∧ 0 < n)) ∧
    ((pyInt? (pyStrip raw) = none ∨
        ∃ n, pyInt? (pyStrip raw) = some n ∧ n ≤ 0) →
      checkField record name FieldKind.positive_integer =
        .error ("Invalid value for " ++ name ++ ": must be a positive integer")) := by
  rw [checkField_posint_eq record name raw hlook hne]
  constructor
  · intro n
    cases hp : pyInt? (pyStrip raw) with
    | none =>
      refine iff_of_false (by simp) ?_
      rintro ⟨h1, -⟩
      exact Option.noConfusion h1
    | some k =>
      dsimp only
      by_cases hk : k ≤ 0
      · rw [if_pos hk]
        refine iff_of_false (by simp) ?_
        rintro ⟨h1, h2⟩
        obtain rfl := Option.some.inj h1
        exact absurd h2 (not_lt.mpr hk)
      · rw [if_neg hk]
        constructor
        · intro hok
          have hkn : k = n := by
            have := hok
            simp only [Except.ok.injEq, Value.int.injEq] at this
            exact this
          subst hkn
          exact ⟨rfl, lt_of_not_le hk⟩
        · rintro ⟨h1, -⟩
          obtain rfl := Option.some.inj h1
          rfl
  · rintro (hp | ⟨n, hp, hn⟩)
    · rw [hp]
    · rw [hp]
      dsimp only
      rw [if_pos hn]

/-- C8 witness: `runtime_hours = "abc"` yields exactly the
positive-integer message. -/
theorem spec_c8_witness :
    checkField [("runtime_hours","abc")] "runtime_hours" FieldKind.positive_integer =
      .error "Invalid value for runtime_hours: must be a positive integer" :=
  ((spec_c8_positive_integer [("runtime_hours","abc")] "runtime_hours" "abc"
    (by decide) (by decide)).2 (Or.inl (by decide))).trans (by decide)
